import Mathlib

/-!
Verification of the dynamic-DNS updater (src/dynip_update.py) against its
natural-language specification.  The Python program is shallowly embedded:
each network-facing capability (interface enumeration, the DNS resolver, the
CloudFlare HTTP transport, the process environment) becomes an explicit
environment record, a call that the Python code lets raise an exception is an
`Except.error`, and each function of the source becomes a Lean function over
those environments that also returns the list of provider/detector calls it
issues (its trace).
-/

namespace DynipUpdate

/-- Python truthiness of an `Optional[str]` value: `None` and the empty
string are falsy, every other string is truthy (used by the source at
`if record_id:`, `if required and not value:`, `... or hostname`,
`if internal_ipv4:`). -/
def pyTruthy : Option String → Bool
  | none => false
  | some s => s != ""

/-- Python `value or default` for an `Optional[str]` value (line 355-357 of
the source: `get_env_or_exit(...) or hostname`). -/
def pyOr (v : Option String) (d : String) : String :=
  match v with
  | some s => if s != "" then s else d
  | none => d

/-! ## IPv4 addresses and the RFC1918 ranges (lines 33-37) -/

/-- An `ipaddress.ip_network` value: an aligned IPv4 network given by its
network address (as a 32-bit number) and prefix length. -/
structure IPv4Network where
  networkAddress : Nat
  prefixLen : Nat
deriving DecidableEq

/-- Highest address of the network (`ipaddress` containment is
`network_address <= ip <= broadcast_address`). -/
def broadcastAddress (n : IPv4Network) : Nat :=
  n.networkAddress + 2 ^ (32 - n.prefixLen) - 1

/-- CPython `IPv4Network.__contains__` for a same-version address. -/
def ipInNetwork (ip : Nat) (n : IPv4Network) : Bool :=
  decide (n.networkAddress ≤ ip ∧ ip ≤ broadcastAddress n)

/-- Line 33-37: `RFC1918_RANGES = [10.0.0.0/8, 172.16.0.0/12, 192.168.0.0/16]`
(network addresses written as 32-bit numbers). -/
def RFC1918_RANGES : List IPv4Network :=
  [⟨167772160, 8⟩, ⟨2886729728, 12⟩, ⟨3232235520, 16⟩]

/-- The loop `for network in RFC1918_RANGES: if ip in network:` of
lines 58-59 and 76-77. -/
def isPrivate (ip : Nat) : Bool :=
  RFC1918_RANGES.any (fun net => ipInNetwork ip net)

/-! ## String parsing (ipaddress.IPv4Address / IPv6Address validation) -/

/-- Numeric value of an ASCII digit character. -/
def digitVal (c : Char) : Nat := c.toNat - 48

/-- Python `str.split(sep)` for a one-character separator, on the character
list of the string (`''.split('.') = ['']`, `'a.'.split('.') = ['a','']`). -/
def splitOnSep (sep : Char) : List Char → List (List Char)
  | [] => [[]]
  | c :: cs =>
    let rest := splitOnSep sep cs
    if c == sep then [] :: rest
    else
      match rest with
      | g :: gs => (c :: g) :: gs
      | [] => [[c]]

/-- CPython `ipaddress._BaseV4._parse_octet`: a decimal octet is non-empty,
ASCII digits only, at most 3 characters, no leading zero (unless it is the
single character `0`), and at most 255. -/
def parseOctet (cs : List Char) : Option Nat :=
  if cs.isEmpty then none
  else if !cs.all Char.isDigit then none
  else if cs.length > 3 then none
  else if cs.headD '1' == '0' && cs.length != 1 then none
  else
    let n := cs.foldl (fun acc c => acc * 10 + digitVal c) 0
    if n ≤ 255 then some n else none

/-- CPython `ipaddress.IPv4Address` acceptance: exactly four dot-separated
octets; the value is the 32-bit number. -/
def parse_ipv4_chars (cs : List Char) : Option Nat :=
  match (splitOnSep '.' cs).map parseOctet with
  | [some a, some b, some c, some d] => some (((a * 256 + b) * 256 + c) * 256 + d)
  | _ => none

/-- String-level entry point of `ipaddress.IPv4Address` validation. -/
def parse_ipv4 (s : String) : Option Nat := parse_ipv4_chars s.toList

/-- Python `s.strip('"')`: remove every leading and trailing quote
character (line 99: TXT answers come back quoted). -/
def stripQuotes (s : String) : String :=
  String.mk (((s.toList.dropWhile (fun c => c == '"')).reverse.dropWhile
    (fun c => c == '"')).reverse)

/-- ASCII hexadecimal digit. -/
def isHexDigitChar (c : Char) : Bool :=
  c.isDigit || (97 ≤ c.toNat && c.toNat ≤ 102) || (65 ≤ c.toNat && c.toNat ≤ 70)

/-- CPython `ipaddress._BaseV6._parse_hextet`: 1 to 4 hexadecimal digits. -/
def isHextet (cs : List Char) : Bool :=
  !cs.isEmpty && decide (cs.length ≤ 4) && cs.all isHexDigitChar

/-- Split a list at the first occurrence of `sep` (Python `str.partition`),
`none` when `sep` does not occur. -/
def splitFirst (sep : Char) : List Char → Option (List Char × List Char)
  | [] => none
  | c :: cs =>
    if c == sep then some ([], cs)
    else
      match splitFirst sep cs with
      | some (a, b) => some (c :: a, b)
      | none => none

/-- Interior colon-separated parts (everything but the first and last). -/
def innerParts (parts : List (List Char)) : List (List Char) :=
  (parts.drop 1).dropLast

/-- Shape of the single `::` gap in a colon-split IPv6 literal: exactly one
empty interior part; an empty first part forces the gap right after it
(`::x...`), an empty last part forces the gap right before it (`x...::`).
Mirrors the `skip_index` / `parts_hi` / `parts_lo` logic of CPython
`ipaddress._BaseV6._ip_int_from_string`. -/
def okGapShape (parts : List (List Char)) : Bool :=
  let inner := innerParts parts
  if (inner.filter (fun p => p.isEmpty)).length != 1 then false
  else
    let i := (inner.findIdx (fun p => p.isEmpty)) + 1
    (!(parts.headD [' ']).isEmpty || i == 1) &&
    (!(parts.getLastD [' ']).isEmpty || i == parts.length - 2)

/-- CPython `ipaddress.IPv6Address` acceptance of the address part (no scope
id): colon-separated hextets, at most one `::` gap standing for at least one
zero hextet, optionally a trailing embedded IPv4 dotted quad (which counts
as two hextets). -/
def isIPv6Addr (cs : List Char) : Bool :=
  if cs.isEmpty then false
  else
    let parts0 := splitOnSep ':' cs
    if parts0.length < 3 then false
    else
      let lastPart := parts0.getLastD []
      if lastPart.contains '.' && !(parse_ipv4_chars lastPart).isSome then false
      else
        let parts := if lastPart.contains '.' then parts0.dropLast ++ [['0'], ['0']]
                     else parts0
        if parts.length > 9 then false
        else if (parts.filter (fun p => p.isEmpty)).length == 0 then
          parts.length == 8 && parts.all isHextet
        else
          (parts.filter (fun p => !p.isEmpty)).all isHextet &&
          decide ((parts.filter (fun p => !p.isEmpty)).length < 8) &&
          okGapShape parts

/-- CPython `ipaddress.IPv6Address` acceptance: optional `%scope` suffix with
a non-empty scope id free of `%`, then the address grammar. -/
def isIPv6 (s : String) : Bool :=
  match splitFirst '%' s.toList with
  | none => isIPv6Addr s.toList
  | some (addr, scope) => !scope.isEmpty && !scope.contains '%' && isIPv6Addr addr

/-! ## IPAddressDetector (lines 30-130)

The detector's capabilities are an explicit environment.  A capability value
`Except.error ()` stands for the underlying Python call raising an
exception; each detector function returns `Except.error ()` exactly when the
Python function would let an exception propagate to its caller, and
`Except.ok r` when it returns `r`. -/

/-- Environment of the detector's underlying capabilities.
`netifacesAvailable = false` stands for `import netifaces` raising
`ImportError`; `interfaces` is `netifaces.interfaces()`; `ifaddresses i` is
the AF_INET address list of interface `i`, each element the optional `addr`
field of one `addr_info` dict; `socketAddr` is the fallback's
`s.getsockname()[0]` (with any exception of the socket steps as
`Except.error`); `txtV4`/`txtV6` are the TXT answer strings
(`rdata.to_text()`) of the two resolver queries, `Except.error` when the
query raises. -/
structure DetectEnv where
  netifacesAvailable : Bool
  interfaces : Except Unit (List String)
  ifaddresses : String → Except Unit (List (Option String))
  socketAddr : Except Unit String
  txtV4 : Except Unit (List String)
  txtV6 : Except Unit (List String)

/-- Lines 52-63: the loop over one interface's `addr_info` entries.  A
missing or empty `addr` is skipped (`if ip_str:`); a string that
`ipaddress.ip_address` rejects raises `ValueError`, caught by the inner
`except ValueError: continue`; a parsed address is returned when it is in an
RFC1918 range, otherwise the loop continues.  (A string parsing as an IPv6
address behaves like a non-member of every IPv4 range, i.e. the loop also
continues, so only IPv4 parsing is modelled.) -/
def scan_addr_infos : List (Option String) → Option String
  | [] => none
  | info :: rest =>
    match info with
    | none => scan_addr_infos rest
    | some ipStr =>
      if ipStr != "" then
        match parse_ipv4 ipStr with
        | some ip => if isPrivate ip then some ipStr else scan_addr_infos rest
        | none => scan_addr_infos rest
      else scan_addr_infos rest

/-- Lines 49-63: the loop over `netifaces.interfaces()`.  An exception from
`netifaces.ifaddresses` is NOT caught (the surrounding `try` catches only
`ImportError`), so it propagates as `Except.error`. -/
def scan_interfaces (ifaddresses : String → Except Unit (List (Option String))) :
    List String → Except Unit (Option String)
  | [] => Except.ok none
  | i :: rest =>
    match ifaddresses i with
    | Except.error e => Except.error e
    | Except.ok infos =>
      match scan_addr_infos infos with
      | some s => Except.ok (some s)
      | none => scan_interfaces ifaddresses rest

/-- Lines 67-81: the socket fallback.  Any exception (socket calls or
`ip_address` parsing) is caught by `except Exception` and yields absence; a
bound address outside the RFC1918 ranges falls through to `return None`. -/
def socket_fallback (socketAddr : Except Unit String) : Option String :=
  match socketAddr with
  | Except.error _ => none
  | Except.ok ipStr =>
    match parse_ipv4 ipStr with
    | some ip => if isPrivate ip then some ipStr else none
    | none => none

/-- Lines 39-84: `IPAddressDetector.get_internal_ipv4`.  Only `ImportError`
is caught by the outer handler, so when netifaces is importable an exception
raised during enumeration propagates to the caller. -/
def get_internal_ipv4 (env : DetectEnv) : Except Unit (Option String) :=
  if env.netifacesAvailable then
    match env.interfaces with
    | Except.error e => Except.error e
    | Except.ok ifaces => scan_interfaces env.ifaddresses ifaces
  else
    Except.ok (socket_fallback env.socketAddr)

/-- Lines 86-107: `IPAddressDetector.get_external_ipv4`.  A resolver
exception is caught (`except Exception`) and yields absence; the loop takes
the first answer, strips quotes, and either returns it (it parses as IPv4)
or raises `AddressValueError`, also caught, yielding absence; an empty
answer set falls through to `return None`. -/
def get_external_ipv4 (env : DetectEnv) : Except Unit (Option String) :=
  Except.ok (match env.txtV4 with
    | Except.error _ => none
    | Except.ok answers =>
      match answers with
      | [] => none
      | a :: _ =>
        let ipStr := stripQuotes a
        match parse_ipv4 ipStr with
        | some _ => some ipStr
        | none => none)

/-- Lines 109-130: `IPAddressDetector.get_external_ipv6`, same structure
with `ipaddress.IPv6Address` validation. -/
def get_external_ipv6 (env : DetectEnv) : Except Unit (Option String) :=
  Except.ok (match env.txtV6 with
    | Except.error _ => none
    | Except.ok answers =>
      match answers with
      | [] => none
      | a :: _ =>
        let ipStr := stripQuotes a
        if isIPv6 ipStr then some ipStr else none)

/-! ## CloudFlareUpdater (lines 133-324)

The HTTP transport is an environment: each request either raises at the
transport level (connection error, `raise_for_status` on a non-2xx status,
JSON decoding) — modelled as `Except.error ()` — or yields the decoded
response payload.  For mutations only the payload's `success` flag is
observed; for the record listing the `success` flag and the `result` array
(each element reduced to its optional `id` field) are observed.  Every
operation also returns the one API call it issues, as a trace event. -/

/-- One provider/detector call, in program order. -/
inductive Event where
  | detectInternal : Event
  | detectExternalV4 : Event
  | detectExternalV6 : Event
  | lookup (name kind : String) : Event
  | create (name kind content : String) (proxied : Bool) : Event
  | update (recordId name kind content : String) (proxied : Bool) : Event
  | delete (recordId name kind : String) : Event
deriving DecidableEq

/-- Decoded payload of the record-listing GET (line 170-172): the `success`
flag and the `result` array, each record reduced to its optional `id` field
(`none` when the record object has no `id` key). -/
structure LookupResponse where
  success : Bool
  result : List (Option String)
deriving DecidableEq

/-- Responses of the CloudFlare HTTP transport, by request.  `listResp` is
the GET of `get_record_id` (keyed by the `name`/`type` query parameters);
`createResp` the POST of `create_record` (keyed by its body);
`updateResp` the PUT of `update_record` (keyed by record id and body);
`deleteResp` the DELETE of `delete_record` (keyed by the record id in the
URL).  An `Except.ok b` for a mutation is the payload's `success` flag;
`Except.error ()` is a transport-level exception. -/
structure ZoneEnv where
  listResp : String → String → Except Unit LookupResponse
  createResp : String → String → String → Bool → Except Unit Bool
  updateResp : String → String → String → String → Bool → Except Unit Bool
  deleteResp : String → Except Unit Bool

/-- Lines 152-181: `CloudFlareUpdater.get_record_id`.  On a transport
exception the `except` clause yields `None`; on `success` falsy or `result`
empty the `if` is not taken and the function falls through to `return None`;
otherwise the first record's `id` is returned (a record object without an
`id` key raises `KeyError`, caught by the same `except`, yielding `None`). -/
def get_record_id (z : ZoneEnv) (name kind : String) : Option String × List Event :=
  (match z.listResp name kind with
   | Except.error _ => none
   | Except.ok data =>
     match data.success, data.result with
     | true, entry :: _ => entry
     | _, _ => none,
   [Event.lookup name kind])

/-- Lines 183-218: `CloudFlareUpdater.create_record`: `False` on a transport
exception, otherwise the payload's `success` flag. -/
def create_record (z : ZoneEnv) (name kind content : String) (proxied : Bool) :
    Bool × List Event :=
  (match z.createResp name kind content proxied with
   | Except.error _ => false
   | Except.ok success => success,
   [Event.create name kind content proxied])

/-- Lines 220-256: `CloudFlareUpdater.update_record`: `False` on a transport
exception, otherwise the payload's `success` flag. -/
def update_record (z : ZoneEnv) (recordId name kind content : String) (proxied : Bool) :
    Bool × List Event :=
  (match z.updateResp recordId name kind content proxied with
   | Except.error _ => false
   | Except.ok success => success,
   [Event.update recordId name kind content proxied])

/-- Lines 258-285: `CloudFlareUpdater.delete_record`: `False` on a transport
exception, otherwise the payload's `success` flag. -/
def delete_record (z : ZoneEnv) (recordId name kind : String) : Bool × List Event :=
  (match z.deleteResp recordId with
   | Except.error _ => false
   | Except.ok success => success,
   [Event.delete recordId name kind])

/-- Lines 287-304: `CloudFlareUpdater.delete_record_if_exists`.  The branch
is `if record_id:` — Python truthiness, so both `None` and an empty-string
id take the trivial-success branch. -/
def delete_record_if_exists (z : ZoneEnv) (name kind : String) : Bool × List Event :=
  let r := get_record_id z name kind
  if pyTruthy r.1 then
    let d := delete_record z (r.1.getD "") name kind
    (d.1, r.2 ++ d.2)
  else
    (true, r.2)

/-- Lines 306-324: `CloudFlareUpdater.upsert_record`.  The branch is
`if record_id:` — Python truthiness, so both `None` and an empty-string id
take the create branch. -/
def upsert_record (z : ZoneEnv) (name kind content : String) (proxied : Bool) :
    Bool × List Event :=
  let r := get_record_id z name kind
  if pyTruthy r.1 then
    let u := update_record z (r.1.getD "") name kind content proxied
    (u.1, r.2 ++ u.2)
  else
    let c := create_record z name kind content proxied
    (c.1, r.2 ++ c.2)

/-- Event is a create or an update (the two mutations `upsert_record` can
issue). -/
def isMutationEvent : Event → Bool
  | Event.create _ _ _ _ => true
  | Event.update _ _ _ _ _ => true
  | _ => false

/-! ## Orchestrator (lines 327-418)

The world of one run: the process environment, the three detector results
(the values the three `detector.get_*` calls return; claims about `main`
quantify over them), and the zone transport. -/

/-- Environment and capabilities of one `main` run. -/
structure World where
  getenv : String → Option String
  internal_ipv4 : Option String
  external_ipv4 : Option String
  external_ipv6 : Option String
  zone : ZoneEnv

/-- Lines 327-342: `get_env_or_exit` — `sys.exit(1)` (modelled as
`Except.error 1`) when the variable is required and its value is falsy
(unset or empty), otherwise the value. -/
def get_env_or_exit (getenv : String → Option String) (varName : String)
    (required : Bool) : Except Nat (Option String) :=
  let value := getenv varName
  if required && !pyTruthy value then Except.error 1 else Except.ok value

/-- ASCII lower-casing of one character (the only case mappings that can
make a string compare equal to `"true"`). -/
def lowerAscii (c : Char) : Char :=
  if 65 ≤ c.toNat && c.toNat ≤ 90 then Char.ofNat (c.toNat + 32) else c

/-- Python `str.lower()` restricted to ASCII case mappings. -/
def strLower (s : String) : String := String.mk (s.toList.map lowerAscii)

/-- Line 360: `os.getenv('CF_PROXIED', 'false').lower() == 'true'`. -/
def cfProxied (v : Option String) : Bool := strLower (v.getD "false") == "true"

/-- Line 352: the required `HOSTNAME` value (the default is never reached in
a run that passes the required-configuration check). -/
def cfg_hostname (w : World) : String := (w.getenv "HOSTNAME").getD ""

/-- Line 355: `get_env_or_exit('INTERNAL_DOMAIN', required=False) or hostname`
(the optional lookup never exits and returns the raw value). -/
def cfg_internal_domain (w : World) : String :=
  pyOr (w.getenv "INTERNAL_DOMAIN") (cfg_hostname w)

/-- Line 356: `get_env_or_exit('EXTERNAL_DOMAIN', required=False) or hostname`. -/
def cfg_external_domain (w : World) : String :=
  pyOr (w.getenv "EXTERNAL_DOMAIN") (cfg_hostname w)

/-- Line 357: `get_env_or_exit('IPV6_DOMAIN', required=False) or hostname`. -/
def cfg_ipv6_domain (w : World) : String :=
  pyOr (w.getenv "IPV6_DOMAIN") (cfg_hostname w)

/-- Line 360: the proxied flag of the run. -/
def cfg_proxied (w : World) : Bool := cfProxied (w.getenv "CF_PROXIED")

/-- One slot of lines 374-405: `total_count += 1` always; a truthy detected
address issues an upsert, a falsy one a delete-if-exists; the returned
boolean is whether `success_count` was incremented. -/
def reconcile_slot (z : ZoneEnv) (domain kind : String) (addr : Option String)
    (proxied : Bool) : Bool × List Event :=
  if pyTruthy addr then upsert_record z domain kind (addr.getD "") proxied
  else delete_record_if_exists z domain kind

/-- Lines 374-383: the internal-IPv4 slot. -/
def slot_internal (w : World) : Bool × List Event :=
  reconcile_slot w.zone (cfg_internal_domain w) "A" w.internal_ipv4 (cfg_proxied w)

/-- Lines 385-394: the external-IPv4 slot. -/
def slot_external (w : World) : Bool × List Event :=
  reconcile_slot w.zone (cfg_external_domain w) "A" w.external_ipv4 (cfg_proxied w)

/-- Lines 396-405: the external-IPv6 slot. -/
def slot_ipv6 (w : World) : Bool × List Event :=
  reconcile_slot w.zone (cfg_ipv6_domain w) "AAAA" w.external_ipv6 (cfg_proxied w)

/-- Lines 410-418: the final `sys.exit` — 0 when all attempted operations
succeeded and at least one was attempted, otherwise 1 (both the `elif
success_count > 0` and the final `else` branch exit with 1). -/
def exit_code (successCount totalCount : Nat) : Nat :=
  if successCount = totalCount ∧ 0 < totalCount then 0
  else if 0 < successCount then 1
  else 1

/-- Result of one run: the `sys.exit` code, the `success_count` /
`total_count` summary, and the trace of detector and provider calls. -/
structure RunResult where
  exitCode : Nat
  successCount : Nat
  totalCount : Nat
  trace : List Event
deriving DecidableEq

/-- Lines 345-418: `main`.  The three required configuration reads happen
first (each may `sys.exit(1)`); then the three detections (lines 363-366,
traced as detect events), then the three slots in order; finally the exit
code is computed from the summary counters. -/
def main (w : World) : RunResult :=
  match get_env_or_exit w.getenv "CF_API_TOKEN" true with
  | Except.error code => ⟨code, 0, 0, []⟩
  | Except.ok _ =>
    match get_env_or_exit w.getenv "CF_ZONE_ID" true with
    | Except.error code => ⟨code, 0, 0, []⟩
    | Except.ok _ =>
      match get_env_or_exit w.getenv "HOSTNAME" true with
      | Except.error code => ⟨code, 0, 0, []⟩
      | Except.ok _ =>
        let s1 := slot_internal w
        let s2 := slot_external w
        let s3 := slot_ipv6 w
        let successCount := s1.1.toNat + s2.1.toNat + s3.1.toNat
        ⟨exit_code successCount 3, successCount, 3,
         [Event.detectInternal, Event.detectExternalV4, Event.detectExternalV6]
           ++ s1.2 ++ s2.2 ++ s3.2⟩

/-! ## Detector results are never a present empty string

Every address a detector returns has passed `ipaddress` validation, so the
empty string is impossible; these lemmas justify quantifying `main` over
detector results that are not `some ""`. -/

/-- The empty string does not parse as an IPv4 address. -/
theorem parse_ipv4_empty : parse_ipv4 "" = none := rfl

/-- The interface scan never yields a present empty string. -/
theorem scan_addr_infos_ne_empty (l : List (Option String)) :
    scan_addr_infos l ≠ some "" := by
  induction l with
  | nil => simp [scan_addr_infos]
  | cons info rest ih =>
    cases info with
    | none => simpa [scan_addr_infos] using ih
    | some s =>
      by_cases hs : s = ""
      · subst hs; simpa [scan_addr_infos] using ih
      · cases hp : parse_ipv4 s with
        | none => simpa [scan_addr_infos, hs, hp] using ih
        | some ip =>
          by_cases hpriv : isPrivate ip = true
          · simp [scan_addr_infos, hs, hp, hpriv]
          · simpa [scan_addr_infos, hs, hp, hpriv] using ih

/-- The interface loop never yields a present empty string. -/
theorem scan_interfaces_ne_empty (f : String → Except Unit (List (Option String)))
    (l : List String) : scan_interfaces f l ≠ Except.ok (some "") := by
  induction l with
  | nil => simp [scan_interfaces]
  | cons i rest ih =>
    unfold scan_interfaces
    cases hf : f i with
    | error e => simp
    | ok infos =>
      cases hscan : scan_addr_infos infos with
      | none => simpa [hscan] using ih
      | some s =>
        have hne := scan_addr_infos_ne_empty infos
        rw [hscan] at hne
        simpa [hscan] using hne

/-- The socket fallback never yields a present empty string. -/
theorem socket_fallback_ne_empty (a : Except Unit String) :
    socket_fallback a ≠ some "" := by
  unfold socket_fallback
  cases a with
  | error e => simp
  | ok s =>
    cases hp : parse_ipv4 s with
    | none => simp [hp]
    | some ip =>
      by_cases hpriv : isPrivate ip = true
      · simp [hp, hpriv]
        intro he
        rw [he, parse_ipv4_empty] at hp
        exact Option.noConfusion hp
      · simp [hp, hpriv]

/-- Internal detection never returns a present empty string. -/
theorem get_internal_ipv4_ne_empty (env : DetectEnv) :
    get_internal_ipv4 env ≠ Except.ok (some "") := by
  unfold get_internal_ipv4
  by_cases hn : env.netifacesAvailable = true
  · simp only [hn, if_true]
    cases env.interfaces with
    | error e => simp
    | ok ifaces => exact scan_interfaces_ne_empty env.ifaddresses ifaces
  · simpa [hn] using socket_fallback_ne_empty env.socketAddr

/-- External IPv4 detection never returns a present empty string. -/
theorem get_external_ipv4_ne_empty (env : DetectEnv) :
    get_external_ipv4 env ≠ Except.ok (some "") := by
  unfold get_external_ipv4
  cases env.txtV4 with
  | error e => simp
  | ok answers =>
    cases answers with
    | nil => simp
    | cons a rest =>
      cases hp : parse_ipv4 (stripQuotes a) with
      | none => simp [hp]
      | some ip =>
        simp [hp]
        intro he
        rw [he, parse_ipv4_empty] at hp
        exact Option.noConfusion hp

/-- External IPv6 detection never returns a present empty string. -/
theorem get_external_ipv6_ne_empty (env : DetectEnv) :
    get_external_ipv6 env ≠ Except.ok (some "") := by
  unfold get_external_ipv6
  cases env.txtV6 with
  | error e => simp
  | ok answers =>
    cases answers with
    | nil => simp
    | cons a rest =>
      by_cases h6 : isIPv6 (stripQuotes a) = true
      · simp [h6]
        intro he
        rw [he] at h6
        exact absurd h6 (by decide)
      · simp [h6]

/-! ## Unfolding lemmas for the zone-client compound operations -/

/-- Characterisation of `upsert_record` by the looked-up id: the lookup
always comes first and its truthiness selects the one mutation. -/
theorem upsert_record_eq (z : ZoneEnv) (n k c : String) (p : Bool) :
    upsert_record z n k c p =
      if pyTruthy (get_record_id z n k).1 then
        ((update_record z ((get_record_id z n k).1.getD "") n k c p).1,
         Event.lookup n k :: (update_record z ((get_record_id z n k).1.getD "") n k c p).2)
      else
        ((create_record z n k c p).1,
         Event.lookup n k :: (create_record z n k c p).2) := rfl

/-- Characterisation of `delete_record_if_exists` by the looked-up id. -/
theorem delete_if_exists_eq (z : ZoneEnv) (n k : String) :
    delete_record_if_exists z n k =
      if pyTruthy (get_record_id z n k).1 then
        ((delete_record z ((get_record_id z n k).1.getD "") n k).1,
         Event.lookup n k :: (delete_record z ((get_record_id z n k).1.getD "") n k).2)
      else
        (true, [Event.lookup n k]) := rfl

/-- A slot whose detected address is present (and, as detector results
always are, not the empty string) issues the upsert. -/
theorem reconcile_slot_present (z : ZoneEnv) (d k ip : String) (p : Bool) (h : ip ≠ "") :
    reconcile_slot z d k (some ip) p = upsert_record z d k ip p := by
  simp [reconcile_slot, pyTruthy, h]

/-- A slot whose detected address is absent issues the delete-if-exists. -/
theorem reconcile_slot_absent (z : ZoneEnv) (d k : String) (p : Bool) :
    reconcile_slot z d k none p = delete_record_if_exists z d k := by
  simp [reconcile_slot, pyTruthy]

/-- Behaviour of the final `sys.exit` mapping (lines 410-418). -/
theorem exit_code_spec (s t : Nat) :
    (s = t ∧ 0 < t → exit_code s t = 0) ∧
    (0 < s → s ≠ t → exit_code s t = 1) ∧
    (s = 0 → 0 < t → exit_code s t ≠ 0) := by
  unfold exit_code
  refine ⟨?_, ?_, ?_⟩ <;> intros <;> split_ifs <;> omega

/-- A run whose three required configuration values are truthy reaches
reconciliation: `main` is the composition of the three slots in order, with
the three detections first. -/
theorem main_config_ok (w : World)
    (h1 : pyTruthy (w.getenv "CF_API_TOKEN") = true)
    (h2 : pyTruthy (w.getenv "CF_ZONE_ID") = true)
    (h3 : pyTruthy (w.getenv "HOSTNAME") = true) :
    main w =
      ⟨exit_code ((slot_internal w).1.toNat + (slot_external w).1.toNat
          + (slot_ipv6 w).1.toNat) 3,
       (slot_internal w).1.toNat + (slot_external w).1.toNat + (slot_ipv6 w).1.toNat, 3,
       [Event.detectInternal, Event.detectExternalV4, Event.detectExternalV6]
         ++ (slot_internal w).2 ++ (slot_external w).2 ++ (slot_ipv6 w).2⟩ := by
  simp [main, get_env_or_exit, h1, h2, h3]

/-- Total count of a configuration-ok run. -/
theorem main_total (w : World)
    (h1 : pyTruthy (w.getenv "CF_API_TOKEN") = true)
    (h2 : pyTruthy (w.getenv "CF_ZONE_ID") = true)
    (h3 : pyTruthy (w.getenv "HOSTNAME") = true) :
    (main w).totalCount = 3 := by
  rw [main_config_ok w h1 h2 h3]

/-- Success count of a configuration-ok run: the sum of the three slots'
booleans. -/
theorem main_succ (w : World)
    (h1 : pyTruthy (w.getenv "CF_API_TOKEN") = true)
    (h2 : pyTruthy (w.getenv "CF_ZONE_ID") = true)
    (h3 : pyTruthy (w.getenv "HOSTNAME") = true) :
    (main w).successCount =
      (slot_internal w).1.toNat + (slot_external w).1.toNat + (slot_ipv6 w).1.toNat := by
  rw [main_config_ok w h1 h2 h3]

/-- Exit code of a configuration-ok run. -/
theorem main_exit (w : World)
    (h1 : pyTruthy (w.getenv "CF_API_TOKEN") = true)
    (h2 : pyTruthy (w.getenv "CF_ZONE_ID") = true)
    (h3 : pyTruthy (w.getenv "HOSTNAME") = true) :
    (main w).exitCode =
      exit_code ((slot_internal w).1.toNat + (slot_external w).1.toNat
        + (slot_ipv6 w).1.toNat) 3 := by
  rw [main_config_ok w h1 h2 h3]

/-- Trace of a configuration-ok run: the three detections, then the three
slots' calls in order. -/
theorem main_trace (w : World)
    (h1 : pyTruthy (w.getenv "CF_API_TOKEN") = true)
    (h2 : pyTruthy (w.getenv "CF_ZONE_ID") = true)
    (h3 : pyTruthy (w.getenv "HOSTNAME") = true) :
    (main w).trace =
      [Event.detectInternal, Event.detectExternalV4, Event.detectExternalV6]
        ++ (slot_internal w).2 ++ (slot_external w).2 ++ (slot_ipv6 w).2 := by
  rw [main_config_ok w h1 h2 h3]

/-- Every create or update event a slot issues carries the run's proxied
flag. -/
theorem reconcile_slot_mutation_proxied (z : ZoneEnv) (d k : String) (a : Option String)
    (p : Bool) :
    (∀ n k2 c p2, Event.create n k2 c p2 ∈ (reconcile_slot z d k a p).2 → p2 = p) ∧
    (∀ i n k2 c p2, Event.update i n k2 c p2 ∈ (reconcile_slot z d k a p).2 → p2 = p) := by
  unfold reconcile_slot
  split
  · rw [upsert_record_eq]
    split <;>
      refine ⟨?_, ?_⟩ <;> intros _ _ _ _ <;> intros <;>
      simp_all [update_record, create_record]
  · rw [delete_if_exists_eq]
    split <;>
      refine ⟨?_, ?_⟩ <;> intros _ _ _ _ <;> intros <;>
      simp_all [delete_record]

/-! ## Concrete environments used by witnesses and counterexamples -/

/-- Transport whose record listing reports one existing record whose `id`
field is the empty string, whose updates succeed and whose creates and
deletes fail. -/
def zEmptyId : ZoneEnv :=
  { listResp := fun _ _ => Except.ok ⟨true, [some ""]⟩
    createResp := fun _ _ _ _ => Except.ok false
    updateResp := fun _ _ _ _ _ => Except.ok true
    deleteResp := fun _ => Except.ok false }

/-- Transport on which every operation succeeds; the listing reports one
record with id `rec-id-1`. -/
def zOk : ZoneEnv :=
  { listResp := fun _ _ => Except.ok ⟨true, [some "rec-id-1"]⟩
    createResp := fun _ _ _ _ => Except.ok true
    updateResp := fun _ _ _ _ _ => Except.ok true
    deleteResp := fun _ => Except.ok true }

/-- Process environment with the three required values set, `CF_PROXIED`
set to `TRUE`, and no domain overrides. -/
def env0 : String → Option String := fun v =>
  if v = "CF_API_TOKEN" then some "token123"
  else if v = "CF_ZONE_ID" then some "zone123"
  else if v = "HOSTNAME" then some "host.example.com"
  else if v = "CF_PROXIED" then some "TRUE"
  else none

/-- World of the spec's example run: internal IPv4 present, external IPv4
absent, external IPv6 present, every provider call succeeding. -/
def w0 : World :=
  { getenv := env0
    internal_ipv4 := some "192.168.1.5"
    external_ipv4 := none
    external_ipv6 := some "2001:db8::1"
    zone := zOk }

/-- World whose process environment is entirely unset. -/
def wMissing : World :=
  { getenv := fun _ => none
    internal_ipv4 := none
    external_ipv4 := none
    external_ipv6 := none
    zone := zOk }

/-- Detector environment in which netifaces is importable but
`netifaces.interfaces()` raises. -/
def dEnumRaises : DetectEnv :=
  { netifacesAvailable := true
    interfaces := Except.error ()
    ifaddresses := fun _ => Except.ok []
    socketAddr := Except.error ()
    txtV4 := Except.error ()
    txtV6 := Except.error () }

/-- Detector environment whose IPv4 TXT query answers `"203.0.113.5"`
(quoted, as `rdata.to_text()` renders it). -/
def dTxtGood : DetectEnv :=
  { netifacesAvailable := false
    interfaces := Except.ok []
    ifaddresses := fun _ => Except.ok []
    socketAddr := Except.error ()
    txtV4 := Except.ok ["\"203.0.113.5\""]
    txtV6 := Except.error () }

/-- Detector environment whose IPv4 TXT query answers the malformed
`not-an-ip`. -/
def dTxtBad : DetectEnv :=
  { dTxtGood with txtV4 := Except.ok ["not-an-ip"] }

/-! ## C3 — upsert: lookup first, then exactly one mutation -/

/-- C3 counterexample: on a transport whose listing reports a record with an
empty-string `id`, `get_record_id` returns a PRESENT id, yet `upsert_record`
issues `create_record` (because `if record_id:` is Python truthiness), and
returns create's result (`false`) instead of update's (`true`).  So "update
when the lookup returns a present id" is false as stated. -/
theorem upsert_empty_id_creates :
    (get_record_id zEmptyId "host.example.com" "A").1 = some "" ∧
    (update_record zEmptyId "" "host.example.com" "A" "1.2.3.4" false).1 = true ∧
    upsert_record zEmptyId "host.example.com" "A" "1.2.3.4" false =
      (false, [Event.lookup "host.example.com" "A",
               Event.create "host.example.com" "A" "1.2.3.4" false]) := by
  decide

/-- C3 (amended): for every call to `upsert_record` the record id is looked
up first and exactly one of the two mutations is then invoked: update when
the lookup returns a present non-empty id (upsert returning update's
result), create when it returns absent or an empty id (upsert returning
create's result); create is never issued without the preceding lookup. -/
theorem upsert_lookup_then_one_mutation (z : ZoneEnv) (n k c : String) (p : Bool) :
    (upsert_record z n k c p).2.head? = some (Event.lookup n k) ∧
    ((upsert_record z n k c p).2.filter isMutationEvent).length = 1 ∧
    (∀ i, (get_record_id z n k).1 = some i → i ≠ "" →
      upsert_record z n k c p =
        ((update_record z i n k c p).1,
         Event.lookup n k :: (update_record z i n k c p).2)) ∧
    ((get_record_id z n k).1 = none ∨ (get_record_id z n k).1 = some "" →
      upsert_record z n k c p =
        ((create_record z n k c p).1,
         Event.lookup n k :: (create_record z n k c p).2)) := by
  refine ⟨?_, ?_, ?_, ?_⟩
  · rw [upsert_record_eq]; split <;> rfl
  · rw [upsert_record_eq]; split <;>
      simp [isMutationEvent, update_record, create_record, List.filter]
  · intro i hi hne
    rw [upsert_record_eq, hi]
    simp [pyTruthy, hne]
  · intro h
    rw [upsert_record_eq]
    rcases h with h | h <;> rw [h] <;> simp [pyTruthy]

/-! ## C5 — zone operations catch failures and return plain results -/

/-- C5: `get_record_id` returns absent both on a transport failure and when
the provider reports no match (or a failed payload) — the two are
indistinguishable to the caller — and each mutation returns `true` exactly
when the transport succeeded and the provider's own payload flag is
success, `false` on every transport-level or provider-level failure. -/
theorem zone_ops_catch_failures (z : ZoneEnv) (i n k c : String) (p : Bool) :
    (z.listResp n k = Except.error () → (get_record_id z n k).1 = none) ∧
    (∀ resp, z.listResp n k = Except.ok resp →
      resp.success = false ∨ resp.result = [] → (get_record_id z n k).1 = none) ∧
    ((create_record z n k c p).1 = true ↔ z.createResp n k c p = Except.ok true) ∧
    ((update_record z i n k c p).1 = true ↔ z.updateResp i n k c p = Except.ok true) ∧
    ((delete_record z i n k).1 = true ↔ z.deleteResp i = Except.ok true) := by
  refine ⟨?_, ?_, ?_, ?_, ?_⟩
  · intro h; simp [get_record_id, h]
  · intro resp h hor
    rcases hor with h1 | h1 <;>
      · cases resp
        simp_all [get_record_id]
  · cases h : z.createResp n k c p <;> simp [create_record, h]
  · cases h : z.updateResp i n k c p <;> simp [update_record, h]
  · cases h : z.deleteResp i <;> simp [delete_record, h]

/-! ## C6 — delete-if-exists -/

/-- C6 counterexample: on a transport whose listing reports a record with an
empty-string `id`, the lookup returns a PRESENT id and `delete_record` with
that id would return `false`, yet `delete_record_if_exists` returns `true`
without issuing any delete call — so "a present id delegates to
deleteRecord" is false as stated. -/
theorem delete_if_exists_empty_id_no_delete :
    (get_record_id zEmptyId "host.example.com" "A").1 = some "" ∧
    (delete_record zEmptyId "" "host.example.com" "A").1 = false ∧
    delete_record_if_exists zEmptyId "host.example.com" "A" =
      (true, [Event.lookup "host.example.com" "A"]) := by
  decide

/-- C6 (amended): `delete_record_if_exists` returns success without issuing
any delete request when the lookup returns absent or an empty id; when the
lookup returns a present non-empty id it delegates to `delete_record` with
that id and returns exactly its result. -/
theorem delete_if_exists_behaviour (z : ZoneEnv) (n k : String) :
    ((get_record_id z n k).1 = none ∨ (get_record_id z n k).1 = some "" →
      delete_record_if_exists z n k = (true, [Event.lookup n k])) ∧
    (∀ i, (get_record_id z n k).1 = some i → i ≠ "" →
      delete_record_if_exists z n k =
        ((delete_record z i n k).1,
         Event.lookup n k :: (delete_record z i n k).2)) := by
  refine ⟨?_, ?_⟩
  · intro h
    rw [delete_if_exists_eq]
    rcases h with h | h <;> rw [h] <;> simp [pyTruthy]
  · intro i hi hne
    rw [delete_if_exists_eq, hi]
    simp [pyTruthy, hne]

/-! ## C4 — detector error isolation -/

/-- C4 counterexample: when netifaces is importable but the interface
enumeration itself raises, `get_internal_ipv4` propagates the exception to
its caller (the outer handler catches only `ImportError`), so "never
propagates an exception" is false as stated. -/
theorem internal_detection_propagates :
    get_internal_ipv4 dEnumRaises = Except.error () := rfl

/-- C4 (amended): both external detections and the internal socket-fallback
never propagate an exception — every underlying failure collapses to an
absent result — but when the interface-enumeration module is importable, an
error raised by the enumeration itself propagates to the caller (only the
module's absence triggers the fallback). -/
theorem detector_failure_policy (env : DetectEnv) :
    (∃ r, get_external_ipv4 env = Except.ok r) ∧
    (∃ r, get_external_ipv6 env = Except.ok r) ∧
    (env.txtV4 = Except.error () → get_external_ipv4 env = Except.ok none) ∧
    (env.txtV6 = Except.error () → get_external_ipv6 env = Except.ok none) ∧
    (env.netifacesAvailable = false → ∃ r, get_internal_ipv4 env = Except.ok r) ∧
    (env.netifacesAvailable = false → env.socketAddr = Except.error () →
      get_internal_ipv4 env = Except.ok none) ∧
    (env.netifacesAvailable = true → env.interfaces = Except.error () →
      get_internal_ipv4 env = Except.error ()) := by
  refine ⟨⟨_, rfl⟩, ⟨_, rfl⟩, ?_, ?_, ?_, ?_, ?_⟩
  · intro h; simp [get_external_ipv4, h]
  · intro h; simp [get_external_ipv6, h]
  · intro h
    refine ⟨socket_fallback env.socketAddr, ?_⟩
    simp [get_internal_ipv4, h]
  · intro h hs; simp [get_internal_ipv4, h, socket_fallback, hs]
  · intro h hi; simp [get_internal_ipv4, h, hi]

/-! ## C7 — RFC1918 classification -/

/-- C7: writing a 32-bit IPv4 address by its four octets, the private
classification of the source accepts it exactly when it lies in 10.0.0.0/8,
172.16.0.0/12 or 192.168.0.0/16; and in the socket-fallback path a bound
address outside those ranges is discarded, yielding absence. -/
theorem rfc1918_classification (d3 d2 d1 d0 : Nat)
    (h3 : d3 < 256) (h2 : d2 < 256) (h1 : d1 < 256) (h0 : d0 < 256) :
    (isPrivate (((d3 * 256 + d2) * 256 + d1) * 256 + d0) = true ↔
      d3 = 10 ∨ (d3 = 172 ∧ 16 ≤ d2 ∧ d2 ≤ 31) ∨ (d3 = 192 ∧ d2 = 168)) ∧
    (∀ env : DetectEnv, ∀ s ip, env.netifacesAvailable = false →
      env.socketAddr = Except.ok s → parse_ipv4 s = some ip → isPrivate ip = false →
      get_internal_ipv4 env = Except.ok none) := by
  constructor
  · simp only [isPrivate, RFC1918_RANGES, List.any_cons, List.any_nil, Bool.or_eq_true,
      Bool.or_false, ipInNetwork, decide_eq_true_eq, broadcastAddress]
    norm_num
    omega
  · intro env s ip hna hs hp hpriv
    simp [get_internal_ipv4, hna, socket_fallback, hs, hp, hpriv]

/-- C7 witness at the concrete public address 203.0.113.5 (classified
non-private) together with the fallback-discard consequence. -/
theorem rfc1918_classification_witness :
    (203 < 256 ∧ 0 < 256 ∧ 113 < 256 ∧ 5 < 256) ∧
    ((isPrivate (((203 * 256 + 0) * 256 + 113) * 256 + 5) = true ↔
      203 = 10 ∨ (203 = 172 ∧ 16 ≤ 0 ∧ 0 ≤ 31) ∨ (203 = 192 ∧ 0 = 168)) ∧
     (∀ env : DetectEnv, ∀ s ip, env.netifacesAvailable = false →
      env.socketAddr = Except.ok s → parse_ipv4 s = some ip → isPrivate ip = false →
      get_internal_ipv4 env = Except.ok none)) :=
  ⟨by decide,
   rfc1918_classification 203 0 113 5 (by decide) (by decide) (by decide) (by decide)⟩

/-! ## C8 — external IPv4 detection from the first TXT answer -/

/-- C8: external IPv4 detection strips the surrounding quote characters off
the first TXT answer and returns it exactly when it parses as an IPv4
address; a non-parsing first answer, an empty answer set, or a failed query
all yield absence. -/
theorem external_v4_first_answer (env : DetectEnv) :
    (∀ a rest, env.txtV4 = Except.ok (a :: rest) →
      get_external_ipv4 env =
        Except.ok (if (parse_ipv4 (stripQuotes a)).isSome then some (stripQuotes a)
                   else none)) ∧
    (env.txtV4 = Except.ok [] → get_external_ipv4 env = Except.ok none) ∧
    (env.txtV4 = Except.error () → get_external_ipv4 env = Except.ok none) := by
  refine ⟨?_, ?_, ?_⟩
  · intro a rest h
    simp only [get_external_ipv4, h]
    cases hp : parse_ipv4 (stripQuotes a) <;> simp [hp]
  · intro h; simp [get_external_ipv4, h]
  · intro h; simp [get_external_ipv4, h]

/-- C8 witness: the quoted TXT answer `"203.0.113.5"` yields the address
with quotes stripped, and the malformed answer `not-an-ip` yields absence. -/
theorem external_v4_first_answer_witness :
    dTxtGood.txtV4 = Except.ok ["\"203.0.113.5\""] ∧
    get_external_ipv4 dTxtGood = Except.ok (some "203.0.113.5") ∧
    dTxtBad.txtV4 = Except.ok ["not-an-ip"] ∧
    get_external_ipv4 dTxtBad = Except.ok none := by
  refine ⟨rfl, ?_, rfl, ?_⟩
  · have h := (external_v4_first_answer dTxtGood).1 "\"203.0.113.5\"" [] rfl
    rw [h]; rfl
  · have h := (external_v4_first_answer dTxtBad).1 "not-an-ip" [] rfl
    rw [h]; rfl

/-! ## C1 — a run always attempts exactly the three slots, in order -/

/-- C1: in every run that passes the required-configuration check, exactly
three operations are attempted — internal-IPv4, external-IPv4,
external-IPv6, in that order after the three detections — each slot
contributing exactly one boolean to the summary, computed independently of
the other slots' outcomes; a slot with a present address issues an upsert,
one with an absent address a delete-if-exists.  (The detectors never return
a present empty string, hence the three non-emptiness hypotheses.) -/
theorem run_attempts_three_slots (w : World)
    (h1 : pyTruthy (w.getenv "CF_API_TOKEN") = true)
    (h2 : pyTruthy (w.getenv "CF_ZONE_ID") = true)
    (h3 : pyTruthy (w.getenv "HOSTNAME") = true)
    (ha : w.internal_ipv4 ≠ some "") (hb : w.external_ipv4 ≠ some "")
    (hc : w.external_ipv6 ≠ some "") :
    (main w).totalCount = 3 ∧
    (main w).successCount =
      (slot_internal w).1.toNat + (slot_external w).1.toNat + (slot_ipv6 w).1.toNat ∧
    (main w).trace =
      [Event.detectInternal, Event.detectExternalV4, Event.detectExternalV6]
        ++ (slot_internal w).2 ++ (slot_external w).2 ++ (slot_ipv6 w).2 ∧
    (∀ ip, w.internal_ipv4 = some ip →
      slot_internal w = upsert_record w.zone (cfg_internal_domain w) "A" ip (cfg_proxied w)) ∧
    (w.internal_ipv4 = none →
      slot_internal w = delete_record_if_exists w.zone (cfg_internal_domain w) "A") ∧
    (∀ ip, w.external_ipv4 = some ip →
      slot_external w = upsert_record w.zone (cfg_external_domain w) "A" ip (cfg_proxied w)) ∧
    (w.external_ipv4 = none →
      slot_external w = delete_record_if_exists w.zone (cfg_external_domain w) "A") ∧
    (∀ ip, w.external_ipv6 = some ip →
      slot_ipv6 w = upsert_record w.zone (cfg_ipv6_domain w) "AAAA" ip (cfg_proxied w)) ∧
    (w.external_ipv6 = none →
      slot_ipv6 w = delete_record_if_exists w.zone (cfg_ipv6_domain w) "AAAA") := by
  refine ⟨main_total w h1 h2 h3, main_succ w h1 h2 h3, main_trace w h1 h2 h3,
    ?_, ?_, ?_, ?_, ?_, ?_⟩
  · intro ip hip
    have hne : ip ≠ "" := by intro he; subst he; exact ha hip
    unfold slot_internal
    rw [hip, reconcile_slot_present _ _ _ _ _ hne]
  · intro hip
    unfold slot_internal
    rw [hip, reconcile_slot_absent]
  · intro ip hip
    have hne : ip ≠ "" := by intro he; subst he; exact hb hip
    unfold slot_external
    rw [hip, reconcile_slot_present _ _ _ _ _ hne]
  · intro hip
    unfold slot_external
    rw [hip, reconcile_slot_absent]
  · intro ip hip
    have hne : ip ≠ "" := by intro he; subst he; exact hc hip
    unfold slot_ipv6
    rw [hip, reconcile_slot_present _ _ _ _ _ hne]
  · intro hip
    unfold slot_ipv6
    rw [hip, reconcile_slot_absent]

/-- C1 witness: the spec's example run (internal present, external IPv4
absent, external IPv6 present) on a fully succeeding transport. -/
theorem run_attempts_three_slots_witness :
    (pyTruthy (w0.getenv "CF_API_TOKEN") = true ∧
     pyTruthy (w0.getenv "CF_ZONE_ID") = true ∧
     pyTruthy (w0.getenv "HOSTNAME") = true ∧
     w0.internal_ipv4 ≠ some "" ∧ w0.external_ipv4 ≠ some "" ∧
     w0.external_ipv6 ≠ some "") ∧
    ((main w0).totalCount = 3 ∧
     (main w0).successCount =
       (slot_internal w0).1.toNat + (slot_external w0).1.toNat + (slot_ipv6 w0).1.toNat ∧
     (main w0).trace =
       [Event.detectInternal, Event.detectExternalV4, Event.detectExternalV6]
         ++ (slot_internal w0).2 ++ (slot_external w0).2 ++ (slot_ipv6 w0).2 ∧
     (∀ ip, w0.internal_ipv4 = some ip →
       slot_internal w0 =
         upsert_record w0.zone (cfg_internal_domain w0) "A" ip (cfg_proxied w0)) ∧
     (w0.internal_ipv4 = none →
       slot_internal w0 = delete_record_if_exists w0.zone (cfg_internal_domain w0) "A") ∧
     (∀ ip, w0.external_ipv4 = some ip →
       slot_external w0 =
         upsert_record w0.zone (cfg_external_domain w0) "A" ip (cfg_proxied w0)) ∧
     (w0.external_ipv4 = none →
       slot_external w0 = delete_record_if_exists w0.zone (cfg_external_domain w0) "A") ∧
     (∀ ip, w0.external_ipv6 = some ip →
       slot_ipv6 w0 =
         upsert_record w0.zone (cfg_ipv6_domain w0) "AAAA" ip (cfg_proxied w0)) ∧
     (w0.external_ipv6 = none →
       slot_ipv6 w0 = delete_record_if_exists w0.zone (cfg_ipv6_domain w0) "AAAA")) :=
  ⟨⟨by decide, by decide, by decide, by decide, by decide, by decide⟩,
   run_attempts_three_slots w0 (by decide) (by decide) (by decide) (by decide)
     (by decide) (by decide)⟩

/-! ## C2 — exit code from the run summary -/

/-- C2: in every run that reaches reconciliation, at least one slot is
attempted, the exit code is 0 when every attempted slot succeeded, 1 when
at least one but not all succeeded, and non-zero when zero succeeded. -/
theorem exit_code_matches_summary (w : World)
    (h1 : pyTruthy (w.getenv "CF_API_TOKEN") = true)
    (h2 : pyTruthy (w.getenv "CF_ZONE_ID") = true)
    (h3 : pyTruthy (w.getenv "HOSTNAME") = true) :
    0 < (main w).totalCount ∧
    ((main w).successCount = (main w).totalCount → (main w).exitCode = 0) ∧
    (0 < (main w).successCount → (main w).successCount < (main w).totalCount →
      (main w).exitCode = 1) ∧
    ((main w).successCount = 0 → (main w).exitCode ≠ 0) := by
  rw [main_total w h1 h2 h3, main_succ w h1 h2 h3, main_exit w h1 h2 h3]
  refine ⟨by norm_num, ?_, ?_, ?_⟩
  · intro h
    exact (exit_code_spec _ _).1 ⟨h, by norm_num⟩
  · intro hpos hlt
    exact (exit_code_spec _ _).2.1 hpos (by omega)
  · intro h
    exact (exit_code_spec _ _).2.2 h (by norm_num)

/-- C2 witness at the spec's example run (all three slots succeed, so the
all-succeeded implication fires with exit code 0). -/
theorem exit_code_matches_summary_witness :
    (pyTruthy (w0.getenv "CF_API_TOKEN") = true ∧
     pyTruthy (w0.getenv "CF_ZONE_ID") = true ∧
     pyTruthy (w0.getenv "HOSTNAME") = true) ∧
    (0 < (main w0).totalCount ∧
     ((main w0).successCount = (main w0).totalCount → (main w0).exitCode = 0) ∧
     (0 < (main w0).successCount → (main w0).successCount < (main w0).totalCount →
       (main w0).exitCode = 1) ∧
     ((main w0).successCount = 0 → (main w0).exitCode ≠ 0)) :=
  ⟨⟨by decide, by decide, by decide⟩,
   exit_code_matches_summary w0 (by decide) (by decide) (by decide)⟩

/-! ## C9 — missing required configuration exits before any call -/

/-- C9: when any of the three required configuration values (API token,
zone id, hostname) is unset or empty, the run exits with code 1 before any
detection or provider call: the trace is empty and no operation is
attempted. -/
theorem missing_config_exits_early (w : World)
    (h : pyTruthy (w.getenv "CF_API_TOKEN") = false ∨
         pyTruthy (w.getenv "CF_ZONE_ID") = false ∨
         pyTruthy (w.getenv "HOSTNAME") = false) :
    (main w).exitCode = 1 ∧ (main w).totalCount = 0 ∧ (main w).trace = [] := by
  rcases h with h | h | h
  · simp [main, get_env_or_exit, h]
  · cases h1 : pyTruthy (w.getenv "CF_API_TOKEN") <;>
      simp [main, get_env_or_exit, h, h1]
  · cases h1 : pyTruthy (w.getenv "CF_API_TOKEN") <;>
      cases h2 : pyTruthy (w.getenv "CF_ZONE_ID") <;>
      simp [main, get_env_or_exit, h, h1, h2]

/-- C9 witness: a run with the entire process environment unset. -/
theorem missing_config_exits_early_witness :
    (pyTruthy (wMissing.getenv "CF_API_TOKEN") = false ∨
     pyTruthy (wMissing.getenv "CF_ZONE_ID") = false ∨
     pyTruthy (wMissing.getenv "HOSTNAME") = false) ∧
    ((main wMissing).exitCode = 1 ∧ (main wMissing).totalCount = 0 ∧
     (main wMissing).trace = []) :=
  ⟨Or.inl (by decide), missing_config_exits_early wMissing (Or.inl (by decide))⟩

/-! ## C10 — the proxied flag -/

/-- C10: the proxied flag is true exactly when `CF_PROXIED` is set to a
letter-case variant of `true`; every other value (unset included) yields
false; and every create or update the run issues carries exactly that
flag. -/
theorem proxied_flag_semantics (w : World)
    (h1 : pyTruthy (w.getenv "CF_API_TOKEN") = true)
    (h2 : pyTruthy (w.getenv "CF_ZONE_ID") = true)
    (h3 : pyTruthy (w.getenv "HOSTNAME") = true) :
    (cfg_proxied w = true ↔
      ∃ s, w.getenv "CF_PROXIED" = some s ∧ strLower s = "true") ∧
    (∀ n k c p, Event.create n k c p ∈ (main w).trace → p = cfg_proxied w) ∧
    (∀ i n k c p, Event.update i n k c p ∈ (main w).trace → p = cfg_proxied w) := by
  refine ⟨?_, ?_, ?_⟩
  · unfold cfg_proxied cfProxied
    cases hv : w.getenv "CF_PROXIED" with
    | none => simp [hv]; decide
    | some s => simp [hv]
  · intro n k c p hmem
    rw [main_config_ok w h1 h2 h3] at hmem
    simp only [RunResult.trace, List.append_assoc, List.mem_append, List.mem_cons,
      List.mem_singleton, List.not_mem_nil, or_false, reduceCtorEq, false_or] at hmem
    rcases hmem with h | h | h
    · exact (reconcile_slot_mutation_proxied w.zone (cfg_internal_domain w) "A"
        w.internal_ipv4 (cfg_proxied w)).1 n k c p h
    · exact (reconcile_slot_mutation_proxied w.zone (cfg_external_domain w) "A"
        w.external_ipv4 (cfg_proxied w)).1 n k c p h
    · exact (reconcile_slot_mutation_proxied w.zone (cfg_ipv6_domain w) "AAAA"
        w.external_ipv6 (cfg_proxied w)).1 n k c p h
  · intro i n k c p hmem
    rw [main_config_ok w h1 h2 h3] at hmem
    simp only [RunResult.trace, List.append_assoc, List.mem_append, List.mem_cons,
      List.mem_singleton, List.not_mem_nil, or_false, reduceCtorEq, false_or] at hmem
    rcases hmem with h | h | h
    · exact (reconcile_slot_mutation_proxied w.zone (cfg_internal_domain w) "A"
        w.internal_ipv4 (cfg_proxied w)).2 i n k c p h
    · exact (reconcile_slot_mutation_proxied w.zone (cfg_external_domain w) "A"
        w.external_ipv4 (cfg_proxied w)).2 i n k c p h
    · exact (reconcile_slot_mutation_proxied w.zone (cfg_ipv6_domain w) "AAAA"
        w.external_ipv6 (cfg_proxied w)).2 i n k c p h

/-- C10 witness: with `CF_PROXIED=TRUE` the flag is true and every mutation
of the example run carries it. -/
theorem proxied_flag_semantics_witness :
    (pyTruthy (w0.getenv "CF_API_TOKEN") = true ∧
     pyTruthy (w0.getenv "CF_ZONE_ID") = true ∧
     pyTruthy (w0.getenv "HOSTNAME") = true) ∧
    ((cfg_proxied w0 = true ↔
      ∃ s, w0.getenv "CF_PROXIED" = some s ∧ strLower s = "true") ∧
     (∀ n k c p, Event.create n k c p ∈ (main w0).trace → p = cfg_proxied w0) ∧
     (∀ i n k c p, Event.update i n k c p ∈ (main w0).trace → p = cfg_proxied w0)) :=
  ⟨⟨by decide, by decide, by decide⟩,
   proxied_flag_semantics w0 (by decide) (by decide) (by decide)⟩

end DynipUpdate
